import Mathlib

/-!
Shallow embedding of the AI-Care session-capture and summarization core:
`src/contexts/transcription-context.tsx` (TranscriptionProvider: state
`isTranscribing`, `transcript`, `transcriptionInterval`; operations
`startTranscription`, `stopTranscription`, `resetTranscription`,
`generateSummary`, hook `useTranscription`) and
`src/components/patients/new-session-form.tsx` (NewSessionForm: state
`sessionTitle`, `sessionDuration`, `isGeneratingSummary`, `timer`;
operations `handleStartTranscription`, `handleStopTranscription`,
`handleFinishSession`).

Modelling conventions: React `useState` cells become fields of one explicit
state record `AppState`; `setX` becomes a functional update; `setInterval`
registers a timer (an id plus, for the fragment interval, its captured
mutable `index`) in an explicit list of live timers, and `clearInterval`
removes it; a timer firing is an explicit `Event.fragTick`/`Event.durTick`
carrying the timer id, so arbitrary interleavings of user operations and
pending ticks are traces (`List Event`).  JS falsiness of `""` and `0` is
translated to explicit emptiness / zero tests; JS `String.prototype.trim`
is `trimString` (drop leading and trailing whitespace).  The form's
`useEffect` with dependency `[timer]` (new-session-form.tsx lines 30-36)
clears the previous duration timer whenever `timer` changes; its cleanup
runs at the effect flush immediately after the handler that changed
`timer`, and is folded into that handler's step (`handleStartTranscription`
filters the replaced handle out; `handleStopTranscription` already cleared
it explicitly, so the cleanup re-clearing it is a no-op).  The `async`
summarizer is a function into `Except` (a promise either resolves with a
value or rejects with an error); its 2-second latency is not modelled (no
claim mentions it).
-/

/-- The eleven mock phrases of `startTranscription`
(src/contexts/transcription-context.tsx lines 32-44), verbatim. -/
def mockPhrases : List String :=
  [ "Doctor: Good morning, how are you feeling today?",
    "Patient: I've been having some trouble sleeping lately.",
    "Doctor: I'm sorry to hear that. How long has this been going on?",
    "Patient: For about two weeks now. I think it might be stress-related.",
    "Doctor: That's certainly possible. Let's talk about your stress levels and sleep habits.",
    "Patient: I've been working longer hours and have a big project due soon.",
    "Doctor: I see. Are you having trouble falling asleep or staying asleep?",
    "Patient: Mostly falling asleep. My mind just keeps racing with thoughts about work.",
    "Doctor: That's common with stress-induced insomnia. Let's discuss some strategies that might help.",
    "Patient: That would be great. I've tried over-the-counter sleep aids but they leave me groggy.",
    "Doctor: I understand. Let's focus on sleep hygiene practices first before considering medication." ]

/-- JS `String.prototype.trim`: remove leading and trailing whitespace.
(Executable replacement for `String.trim`, which does not reduce in the
kernel.) -/
def trimString (s : String) : String :=
  ⟨((s.data.dropWhile Char.isWhitespace).reverse.dropWhile Char.isWhitespace).reverse⟩

/-- A live fragment-production interval: the handle returned by
`setInterval` (modelled as a numeric id) together with the mutable `index`
variable captured by its callback (transcription-context.tsx line 46). -/
structure FragInterval where
  id : Nat
  index : Nat
deriving Repr, DecidableEq

/-- The combined mutable state of `TranscriptionProvider` and
`NewSessionForm`.  `intervals` and `durationTimers` are the timers actually
live in the JS runtime; `transcriptionInterval` and `timer` are the handles
the two components remember in React state.  `nextId` supplies fresh timer
handles. -/
structure AppState where
  isTranscribing : Bool
  transcript : String
  transcriptionInterval : Option Nat
  intervals : List FragInterval
  sessionTitle : String
  sessionDuration : Nat
  timer : Option Nat
  durationTimers : List Nat
  isGeneratingSummary : Bool
  nextId : Nat
deriving Repr, DecidableEq

/-- Initial state: both components as first rendered (`useState(false)`,
`useState("")`, `useState(null)`, `useState(0)`); no timers live. -/
def initState : AppState :=
  { isTranscribing := false
    transcript := ""
    transcriptionInterval := none
    intervals := []
    sessionTitle := ""
    sessionDuration := 0
    timer := none
    durationTimers := []
    isGeneratingSummary := false
    nextId := 0 }

/-- `clearInterval(id)` on the fragment-interval list: the timer with that
handle stops firing. -/
def clearFragInterval (id : Nat) (l : List FragInterval) : List FragInterval :=
  l.filter (fun iv => iv.id ≠ id)

/-- `startTranscription` (transcription-context.tsx lines 28-58):
unconditionally sets `isTranscribing` to true, registers a fresh fragment
interval whose callback starts at `index = 0`, and stores its handle in
`transcriptionInterval` (overwriting any previously stored handle).  There
is no guard on `isTranscribing`. -/
def startTranscription (s : AppState) : AppState :=
  { s with
    isTranscribing := true
    intervals := s.intervals ++ [⟨s.nextId, 0⟩]
    transcriptionInterval := some s.nextId
    nextId := s.nextId + 1 }

/-- `stopTranscription` (lines 60-67): sets `isTranscribing` to false and,
if a handle is tracked, clears that one interval and forgets the handle. -/
def stopTranscription (s : AppState) : AppState :=
  { s with
    isTranscribing := false
    intervals :=
      match s.transcriptionInterval with
      | some id => clearFragInterval id s.intervals
      | none => s.intervals
    transcriptionInterval := none }

/-- `resetTranscription` (lines 69-72): `stopTranscription()` then
`setTranscript("")`.  It touches nothing of the form component (in
particular neither `sessionDuration` nor `timer`). -/
def resetTranscription (s : AppState) : AppState :=
  { stopTranscription s with transcript := "" }

/-- `handleStartTranscription` (new-session-form.tsx lines 38-51): calls
`startTranscription()`, then registers a fresh duration timer (one tick per
minute) and stores its handle in `timer` (overwriting any previously
stored handle).  No guard on `isTranscribing` here either.  The component's
`useEffect` with dependency `[timer]` (lines 30-36) runs its cleanup —
`if (timer) clearInterval(timer)` over the previous render's `timer` —
at the effect flush immediately after this handler, clearing any replaced
duration timer; that flush is folded into this step (the replaced
interval's next minute tick lies far beyond the flush), as the filter
against the old `s.timer`. -/
def handleStartTranscription (s : AppState) : AppState :=
  let s1 := startTranscription s
  { s1 with
    durationTimers := (s1.durationTimers.filter (fun j => some j ≠ s.timer)) ++ [s1.nextId]
    timer := some s1.nextId
    nextId := s1.nextId + 1 }

/-- `handleStopTranscription` (new-session-form.tsx lines 53-65): calls
`stopTranscription()` then clears the tracked duration timer, if any. -/
def handleStopTranscription (s : AppState) : AppState :=
  let s1 := stopTranscription s
  { s1 with
    durationTimers :=
      match s1.timer with
      | some id => s1.durationTimers.filter (fun j => j ≠ id)
      | none => s1.durationTimers
    timer := none }

/-- One firing of the fragment-interval callback with handle `id`
(transcription-context.tsx lines 48-55), provided that timer is still live:
while `index < mockPhrases.length` it appends
`prev + (prev ? "\n\n" : "") + mockPhrases[index]` and increments the
captured `index`; once the script is exhausted the callback clears its own
interval.  A tick of a handle that is not live does nothing. -/
def fragTick (id : Nat) (s : AppState) : AppState :=
  match s.intervals.find? (fun iv => iv.id = id) with
  | none => s
  | some iv =>
    if iv.index < mockPhrases.length then
      { s with
        transcript :=
          s.transcript ++ (if s.transcript = "" then "" else "\n\n")
            ++ mockPhrases.getD iv.index ""
        intervals :=
          s.intervals.map (fun j => if j.id = id then ⟨j.id, j.index + 1⟩ else j) }
    else
      { s with intervals := clearFragInterval id s.intervals }

/-- One firing of the duration timer with handle `id` (new-session-form.tsx
lines 41-43), provided that timer is still live:
`setSessionDuration(prev => prev + 1)`. -/
def durTick (id : Nat) (s : AppState) : AppState :=
  if s.durationTimers.contains id then
    { s with sessionDuration := s.sessionDuration + 1 }
  else s

/-- Observable events of the two components: the three user-facing
operations and the asynchronous timer ticks, each tick naming the timer
handle that fires. -/
inductive Event where
  | start
  | stop
  | reset
  | fragTick (id : Nat)
  | durTick (id : Nat)
deriving Repr, DecidableEq

/-- Small-step semantics: `start`/`stop` are the form-level handlers (which
wrap the context operations), `reset` is the `Clear Transcript` button
calling `resetTranscription` directly. -/
def step (e : Event) (s : AppState) : AppState :=
  match e with
  | Event.start => handleStartTranscription s
  | Event.stop => handleStopTranscription s
  | Event.reset => resetTranscription s
  | Event.fragTick id => fragTick id s
  | Event.durTick id => durTick id s

/-- Run a trace of events from a state. -/
def run (s : AppState) (es : List Event) : AppState :=
  es.foldl (fun t e => step e t) s

/-- A Summary Result (the resolved value of `generateSummary`,
transcription-context.tsx lines 13-17): narrative text, key points,
prescriptions.  In TS all three fields are non-null by type. -/
structure Summary where
  text : String
  keyPoints : List String
  prescriptions : List String
deriving Repr, DecidableEq

/-- Errors a summarizer invocation could reject with (spec error taxonomy:
`EmptyInputError`, `SummarizationFailure`). -/
inductive SummaryError where
  | emptyInput
  | summarizationFailure
deriving Repr, DecidableEq

/-- The fixed object literal returned by the mock `generateSummary`
(transcription-context.tsx lines 80-90), verbatim. -/
def mockSummary : Summary :=
  { text := "Patient reported difficulty sleeping for the past two weeks, primarily trouble falling asleep due to racing thoughts about work. Patient attributes the issue to increased stress from longer work hours and an upcoming project deadline. Patient has tried over-the-counter sleep aids but experienced grogginess as a side effect. Discussed sleep hygiene practices as a first-line approach before considering medication."
    keyPoints :=
      [ "Insomnia for past two weeks",
        "Difficulty falling asleep due to racing thoughts",
        "Work-related stress as likely cause",
        "Previous negative experience with OTC sleep aids",
        "Sleep hygiene practices recommended" ]
    prescriptions := [] }

/-- `generateSummary` (transcription-context.tsx lines 75-91): after a
simulated delay it returns `mockSummary`, whatever the transcript argument
is; the body has no failure path, so the promise always resolves
(`Except.ok`). -/
def generateSummary (transcript : String) : Except SummaryError Summary :=
  Except.ok mockSummary

/-- The queryable part of the context value provided by
`TranscriptionProvider` (data fields of `TranscriptionContextType`; the
operation fields are modelled separately above). -/
structure TranscriptionContextValue where
  isTranscribing : Bool
  transcript : String
deriving Repr, DecidableEq

/-- `useTranscription` (transcription-context.tsx lines 109-115): reads the
context (`none` when no provider is above the caller); throws when it is
undefined, otherwise returns it unchanged. -/
def useTranscription (context : Option TranscriptionContextValue) :
    Except String TranscriptionContextValue :=
  match context with
  | none => Except.error "useTranscription must be used within a TranscriptionProvider"
  | some c => Except.ok c

/-- A Session Record as assembled by `handleFinishSession`
(new-session-form.tsx lines 92-101). -/
structure SessionRecord where
  id : String
  title : String
  date : String
  duration : Nat
  transcript : String
  summary : String
  keyPoints : List String
  prescriptions : List String
deriving Repr, DecidableEq

/-- Outcome of one `handleFinishSession` invocation: an early validation
rejection (with the toast description shown), a caught summarizer failure,
or completion carrying the Session Record handed to `addSession` (the
external persistence collaborator). -/
inductive FinishOutcome where
  | validationError (msg : String)
  | summarizationFailed
  | completed (record : SessionRecord)
deriving Repr, DecidableEq

/-- Whether the outcome is a validation rejection. -/
def FinishOutcome.isValidation : FinishOutcome → Bool
  | FinishOutcome.validationError _ => true
  | _ => false

/-- `handleFinishSession` (new-session-form.tsx lines 67-122), parameterized
by the summarizer it awaits (the component receives `generateSummary` from
the context) and by the ambient `crypto.randomUUID()` and
`new Date().toISOString()` values.  Order as in the source: empty-title
check (`!sessionTitle`), empty-trimmed-transcript check, set
`isGeneratingSummary`, await the summarizer; on resolve build the record
(`duration: sessionDuration || 1`), hand it over, clear title and duration,
`resetTranscription()`; on reject only the error toast; `finally` clears
`isGeneratingSummary`. -/
def handleFinishSession (summarize : String → Except SummaryError Summary)
    (uuid date : String) (s : AppState) : FinishOutcome × AppState :=
  if s.sessionTitle = "" then
    (FinishOutcome.validationError "Please enter a session title.", s)
  else if (trimString s.transcript).length = 0 then
    (FinishOutcome.validationError "The transcript is empty. Please record a session first.", s)
  else
    let s1 := { s with isGeneratingSummary := true }
    match summarize s1.transcript with
    | Except.ok summary =>
      let record : SessionRecord :=
        { id := uuid
          title := s1.sessionTitle
          date := date
          duration := if s1.sessionDuration = 0 then 1 else s1.sessionDuration
          transcript := s1.transcript
          summary := summary.text
          keyPoints := summary.keyPoints
          prescriptions := summary.prescriptions }
      let s2 := resetTranscription { s1 with sessionTitle := "", sessionDuration := 0 }
      (FinishOutcome.completed record, { s2 with isGeneratingSummary := false })
    | Except.error _ =>
      (FinishOutcome.summarizationFailed, { s1 with isGeneratingSummary := false })

/-- A summarizer that always rejects: the concrete `SummarizationFailure`
double used to exercise the `catch` branch of `handleFinishSession`. -/
def failingSummarizer : String → Except SummaryError Summary :=
  fun _ => Except.error SummaryError.summarizationFailure

/-- A state mid-session: five accumulated minutes, a non-empty transcript,
capture active. -/
def stateDur5 : AppState :=
  { initState with
    isTranscribing := true
    transcript := "Doctor: hello"
    sessionDuration := 5 }

/-- A state ready to finish: non-empty title, non-empty transcript, zero
accumulated minutes. -/
def stateReady : AppState :=
  { initState with
    sessionTitle := "Visit 1"
    transcript := "Doctor: hello" }

/-- Helper for C8: a single non-reset event only ever extends the
transcript on the right (it appends a fragment or leaves it unchanged). -/
theorem step_transcript_extends (e : Event) (s : AppState) (h : e ≠ Event.reset) :
    ∃ t, (step e s).transcript = s.transcript ++ t := by
  cases e with
  | start => exact ⟨"", (String.append_empty _).symm⟩
  | stop => exact ⟨"", (String.append_empty _).symm⟩
  | reset => exact absurd rfl h
  | fragTick id =>
      show ∃ t, (fragTick id s).transcript = s.transcript ++ t
      unfold fragTick
      split
      · exact ⟨"", (String.append_empty _).symm⟩
      · split
        · exact ⟨_, String.append_assoc _ _ _⟩
        · exact ⟨"", (String.append_empty _).symm⟩
  | durTick id =>
      show ∃ t, (durTick id s).transcript = s.transcript ++ t
      unfold durTick
      split <;> exact ⟨"", (String.append_empty _).symm⟩

/-- Claim C1 (code bug): the claim says stop() cancels every scheduled
fragment-production callback, so the transcript never grows after stop()
returns and before the next start().  The code only clears the single
handle remembered in `transcriptionInterval`; a second `start` while active
overwrites that handle, leaking the first interval, which keeps firing.
Concretely: after the trace start, start, stop the transcript is still
empty and the component is stopped, yet a pending tick of the leaked first
interval (handle 0) then appends a fragment — transcript growth strictly
after stop, with no start in between. -/
theorem C1_transcript_grows_after_stop :
    (run initState [Event.start, Event.start, Event.stop]).isTranscribing = false ∧
    (run initState [Event.start, Event.start, Event.stop]).transcript = "" ∧
    (run initState [Event.start, Event.start, Event.stop, Event.fragTick 0]).transcript =
      "Doctor: Good morning, how are you feeling today?" :=
  ⟨rfl, rfl, rfl⟩

/-- Claim C2 (code bug): the claim says start() while already active is a
no-op.  `startTranscription`/`handleStartTranscription` have no guard on
`isTranscribing`: a second start while active changes the state and leaves
two live fragment intervals — two concurrent fragment sources, so one
3-second tick period appends two fragments (here twice `mockPhrases[0]`).
The duration counter, by contrast, is not doubled: the `useEffect([timer])`
cleanup clears the replaced duration timer at the next effect flush, so
exactly one duration timer stays live and one minute advances
`sessionDuration` by 1 (the tick of the cleared handle 1 is dead; only
handle 3 fires). -/
theorem C2_start_while_active_not_noop :
    (run initState [Event.start]).isTranscribing = true ∧
    (run initState [Event.start, Event.start]).intervals.length = 2 ∧
    (run initState [Event.start, Event.start, Event.fragTick 0, Event.fragTick 2]).transcript =
      "Doctor: Good morning, how are you feeling today?\n\nDoctor: Good morning, how are you feeling today?" ∧
    (run initState [Event.start, Event.start]).durationTimers.length = 1 ∧
    (run initState [Event.start, Event.start, Event.durTick 1, Event.durTick 3]).sessionDuration
      = 1 ∧
    (run initState [Event.start, Event.start]).intervals ≠
      (run initState [Event.start]).intervals :=
  ⟨rfl, rfl, rfl, rfl, rfl, by decide⟩

/-- Claim C3, counterexample: `generateSummary ""` does not fail with an
`EmptyInputError` — the mock resolves to the fixed Summary Result on the
empty string as well. -/
theorem C3_counterexample :
    generateSummary "" = Except.ok mockSummary ∧
    generateSummary "" ≠ Except.error SummaryError.emptyInput :=
  ⟨rfl, by simp [generateSummary]⟩

/-- Claim C3, amended: `generateSummary` resolves to the fixed Summary
Result on every input, the empty string included — it never fails with an
`EmptyInputError` — and the `text` field of that result is non-null
(a non-empty string). -/
theorem C3_amended_always_resolves (t : String) :
    generateSummary t = Except.ok mockSummary ∧ mockSummary.text ≠ "" :=
  ⟨rfl, by decide⟩

/-- Claim C4, counterexample: from the active state `stateDur5` with five
accumulated minutes, `resetTranscription` does not establish
isActive = false ∧ transcript = "" ∧ duration = 0: the accumulated duration
stays 5, so the claimed conjunction fails at this concrete input. -/
theorem C4_counterexample :
    ¬ ((resetTranscription stateDur5).isTranscribing = false ∧
       (resetTranscription stateDur5).transcript = "" ∧
       (resetTranscription stateDur5).sessionDuration = 0) := by
  intro h
  exact absurd h.2.2 (by decide)

/-- Claim C4, amended: from every state, reset() yields isActive = false
and transcript = "", but leaves the accumulated duration (and the duration
timer of the form component) untouched; duration is cleared separately only
on a successful finish. -/
theorem C4_amended_reset (s : AppState) :
    (resetTranscription s).isTranscribing = false ∧
    (resetTranscription s).transcript = "" ∧
    (resetTranscription s).sessionDuration = s.sessionDuration ∧
    (resetTranscription s).timer = s.timer ∧
    (resetTranscription s).durationTimers = s.durationTimers :=
  ⟨rfl, rfl, rfl, rfl, rfl⟩

/-- Claim C5: finishing with an empty title, or with a transcript that is
empty after trimming whitespace, is rejected with a validation error, the
whole state (transcript, isActive, title, everything) is returned
unchanged, and no Session Record is created (the outcome is a validation
rejection, not `completed`). -/
theorem C5_finish_validation_rejected (summarize : String → Except SummaryError Summary)
    (uuid date : String) (s : AppState)
    (h : s.sessionTitle = "" ∨ (trimString s.transcript).length = 0) :
    (handleFinishSession summarize uuid date s).2 = s ∧
    ((handleFinishSession summarize uuid date s).1).isValidation = true := by
  unfold handleFinishSession
  rcases h with h | h
  · simp [h, FinishOutcome.isValidation]
  · by_cases ht : s.sessionTitle = ""
    · simp [ht, FinishOutcome.isValidation]
    · simp [ht, h, FinishOutcome.isValidation]

/-- Witness for C5 at a concrete input: `initState` has an empty title. -/
theorem C5_witness :
    (handleFinishSession generateSummary "u" "2026-01-01" initState).2 = initState ∧
    ((handleFinishSession generateSummary "u" "2026-01-01" initState).1).isValidation = true :=
  C5_finish_validation_rejected generateSummary "u" "2026-01-01" initState (Or.inl rfl)

/-- Claim C6: when the summarizer rejects during finish, the orchestration
reports the failure (outcome `summarizationFailed`, not `completed`, so no
Session Record is created), and the state is unchanged except that the
in-progress flag ends up false: transcript, title, isActive and the
accumulated duration are all retained, and the Transcription Session is not
reset. -/
theorem C6_summarizer_failure_retains_state
    (summarize : String → Except SummaryError Summary) (uuid date : String)
    (s : AppState) (e : SummaryError)
    (ht : ¬ s.sessionTitle = "") (htr : ¬ (trimString s.transcript).length = 0)
    (hf : summarize s.transcript = Except.error e) :
    handleFinishSession summarize uuid date s =
      (FinishOutcome.summarizationFailed, { s with isGeneratingSummary := false }) := by
  unfold handleFinishSession
  simp [ht, htr, hf]

/-- Witness for C6 at a concrete input: finishing `stateReady` with the
always-rejecting summarizer. -/
theorem C6_witness :
    handleFinishSession failingSummarizer "u" "2026-01-01" stateReady =
      (FinishOutcome.summarizationFailed, { stateReady with isGeneratingSummary := false }) :=
  C6_summarizer_failure_retains_state failingSummarizer "u" "2026-01-01" stateReady
    SummaryError.summarizationFailure (by decide) (by decide) rfl

/-- Claim C7: on a successful finish the Session Record's duration is
`sessionDuration || 1`, which equals `max 1 (accumulated minutes)` — the
accumulated minutes when positive, 1 when zero — so every recorded duration
is at least 1. -/
theorem C7_duration_max_one
    (summarize : String → Except SummaryError Summary) (uuid date : String)
    (s : AppState) (summary : Summary)
    (ht : ¬ s.sessionTitle = "") (htr : ¬ (trimString s.transcript).length = 0)
    (hs : summarize s.transcript = Except.ok summary) :
    (handleFinishSession summarize uuid date s).1 =
      FinishOutcome.completed
        { id := uuid
          title := s.sessionTitle
          date := date
          duration := max 1 s.sessionDuration
          transcript := s.transcript
          summary := summary.text
          keyPoints := summary.keyPoints
          prescriptions := summary.prescriptions } ∧
    1 ≤ max 1 s.sessionDuration := by
  have hd : (if s.sessionDuration = 0 then 1 else s.sessionDuration) = max 1 s.sessionDuration := by
    rcases Nat.eq_zero_or_pos s.sessionDuration with h | h
    · simp [h]
    · rw [if_neg (by omega), Nat.max_eq_right h]
  constructor
  · unfold handleFinishSession
    simp [ht, htr, hs, hd]
  · exact Nat.le_max_left 1 _

/-- Witness for C7 at a concrete input: finishing `stateReady` (zero
accumulated minutes) with the mock summarizer records duration
max 1 0 = 1. -/
theorem C7_witness :
    (handleFinishSession generateSummary "u" "2026-01-01" stateReady).1 =
      FinishOutcome.completed
        { id := "u"
          title := stateReady.sessionTitle
          date := "2026-01-01"
          duration := max 1 stateReady.sessionDuration
          transcript := stateReady.transcript
          summary := mockSummary.text
          keyPoints := mockSummary.keyPoints
          prescriptions := mockSummary.prescriptions } ∧
    1 ≤ max 1 stateReady.sessionDuration :=
  C7_duration_max_one generateSummary "u" "2026-01-01" stateReady mockSummary
    (by decide) (by decide) rfl

/-- Claim C8: along any trace of start/stop/tick events containing no
reset, the transcript is only ever extended on the right: the transcript at
the later observation point is the transcript at the earlier point followed
by some (possibly empty) suffix — a prefix-extension.  (This holds from
every state, in particular between any two points while active, which is
the case the claim states.) -/
theorem C8_transcript_append_only (s : AppState) (es : List Event)
    (h : Event.reset ∉ es) :
    ∃ t, (run s es).transcript = s.transcript ++ t := by
  induction es generalizing s with
  | nil => exact ⟨"", (String.append_empty _).symm⟩
  | cons e es ih =>
      have he : e ≠ Event.reset := fun hh => h (by rw [hh]; exact List.mem_cons_self _ _)
      obtain ⟨t1, h1⟩ := step_transcript_extends e s he
      obtain ⟨t2, h2⟩ := ih (step e s) (fun hm => h (List.mem_cons_of_mem _ hm))
      refine ⟨t1 ++ t2, ?_⟩
      have hrun : run s (e :: es) = run (step e s) es := rfl
      rw [hrun, h2, h1, String.append_assoc]

/-- Witness for C8 at a concrete input: a reset-free trace of one start and
two fragment ticks. -/
theorem C8_witness :
    Event.reset ∉ [Event.start, Event.fragTick 0, Event.fragTick 0] ∧
    ∃ t, (run initState [Event.start, Event.fragTick 0, Event.fragTick 0]).transcript =
      initState.transcript ++ t :=
  ⟨by decide, C8_transcript_append_only initState _ (by decide)⟩

/-- Claim C9: the mock `generateSummary` is independent of its transcript
argument — any two invocations (empty input or not) yield the identical
Summary Result, whose key points are the fixed five-element list and whose
prescriptions list is empty. -/
theorem C9_summary_input_independent :
    (∀ t1 t2 : String, generateSummary t1 = generateSummary t2) ∧
    mockSummary.keyPoints.length = 5 ∧ mockSummary.prescriptions = [] :=
  ⟨fun _ _ => rfl, rfl, rfl⟩

/-- Claim C10: `useTranscription` fails with the exact message
"useTranscription must be used within a TranscriptionProvider" when no
context value is provided, and returns the provided context unchanged
otherwise. -/
theorem C10_useTranscription_contract :
    useTranscription none =
      Except.error "useTranscription must be used within a TranscriptionProvider" ∧
    ∀ c, useTranscription (some c) = Except.ok c :=
  ⟨rfl, fun _ => rfl⟩
